import Mathlib

/-!
Verification of the Greensboro AI chat application: the client-side chat
orchestrator (`src/app/page.tsx`), the Data Relay handler (`src/unnamed/part_000`)
and the Prompt Relay handler (`src/unnamed/part_001`), shallowly embedded in Lean.

Network effects are modelled by passing the outcome of each outbound `fetch`
(and of JSON parsing, a platform primitive) as explicit parameters, and by
returning the list of outbound calls a transition issues.
-/

/-! ## Data model (interfaces `ChatMessage`, `ApiResponse`, `EventData` in page.tsx) -/

/-- `Array<\x7bcategory_name: string\x7d>` entries of `eventItemCategories`. -/
structure CategoryTag where
  category_name : String
deriving DecidableEq, Repr

/-- `Array<\x7battraction_type: string\x7d>` entries of `attractionTypes`. -/
structure AttractionTag where
  attraction_type : String
deriving DecidableEq, Repr

/-- `interface EventData` (page.tsx lines 44-61): one venue/event record. -/
structure EventData where
  id : String
  title : String
  listing_image : String
  location : String
  event_starts : Option String := none
  event_ends : Option String := none
  address : String
  city : String
  price : String
  is_favourite : Bool
  eventItemCategories : Option (List CategoryTag) := none
  attractionTypes : Option (List AttractionTag) := none
  categories : String
  description : Option String := none
  phone : Option String := none
  website : Option String := none
deriving DecidableEq, Repr

/-- `ChatMessage.type` is `"user" | "assistant" | "results"`. -/
inductive MsgType where
  | user
  | assistant
  | results
deriving DecidableEq, Repr

/-- `interface ChatMessage` (page.tsx lines 31-37). -/
structure ChatMessage where
  id : String
  type : MsgType
  content : String
  timestamp : Nat
  data : Option (List EventData) := none
deriving DecidableEq, Repr

/-- `interface ApiResponse` (page.tsx lines 39-42): the Prompt Relay descriptor. -/
structure ApiResponse where
  api_url : String
  intent : String
deriving DecidableEq, Repr

/-- The JSON returned by the Data Relay, as the orchestrator reads it:
only its optional `data` field is accessed (`dataResponse.data?` / `|| []`). -/
structure DataResponse where
  data : Option (List EventData) := none
deriving DecidableEq, Repr

/-- Drop leading whitespace characters from a character list. -/
def dropLeadingWs : List Char → List Char
  | [] => []
  | c :: cs => if c.isWhitespace then dropLeadingWs cs else c :: cs

/-- JavaScript `String.prototype.trim()`: strip leading and trailing
whitespace. Defined by structural recursion so that proofs can compute it. -/
def jsTrim (s : String) : String :=
  String.mk (dropLeadingWs ((dropLeadingWs s.data).reverse)).reverse

/-! ## Price rendering (page.tsx lines 507-511 and 726-730) -/

/-- Result-card price display (page.tsx line 508):
`item.price === "0" || item.price === "free" ? "Free" : item.price`. -/
def renderCardPrice (item : EventData) : String :=
  if item.price = "0" ∨ item.price = "free" then "Free" else item.price

/-- Detail-view price display (page.tsx line 727):
`selectedItem.price === "0" || item.price === "free" ? "Free" : selectedItem.price`.
The second disjunct reads `item`, a variable from the card-rendering scope,
not the currently selected item; that variable is passed explicitly here. -/
def renderDetailPrice (selectedItem : EventData) (item : EventData) : String :=
  if selectedItem.price = "0" ∨ item.price = "free" then "Free" else selectedItem.price

/-! ## Relay handlers (src/unnamed/part_000 and part_001)

`J` stands for the platform's JSON value type; `JSON.parse` on a text body is
the parameter `parse : String → Option J` (`none` when parsing throws), and a
request body that fails `request.json()` is `none`. -/

/-- Outcome of an outbound `fetch`: either the call itself threw, or the
upstream responded with a status code and a body (read as text). -/
inductive FetchOutcome where
  | threw (e : String)
  | responded (status : Nat) (bodyText : String)

/-- `response.ok`: status in the range 200-299. -/
def statusOk (status : Nat) : Prop := 200 ≤ status ∧ status < 300

instance (status : Nat) : Decidable (statusOk status) := by
  unfold statusOk; infer_instance

/-- Body of a `NextResponse.json(...)`: either a JSON value passed through,
or an object with a single `error` field. -/
inductive RelayBody (J : Type) where
  | json (j : J)
  | errObj (error : String)
deriving DecidableEq

/-- A response produced by a relay handler. -/
structure RelayResponse (J : Type) where
  status : Nat
  body : RelayBody J
deriving DecidableEq

/-- The client body of a Data Relay request: the handler destructures only
`apiUrl`; `extra` stands for any other fields the client may have sent. -/
structure ClientBody where
  apiUrl : String
  extra : List (String × String) := []
deriving DecidableEq

/-- An outbound HTTP request as built by a `fetch(url, \x7b...\x7d)` call. -/
structure ForwardedRequest where
  url : String
  method : String
  headers : List (String × String)
  body : Option String
deriving DecidableEq, Repr

/-- The outbound request the Data Relay builds (part_000 lines 8-13):
`fetch(apiUrl, \x7bmethod: "POST", headers: \x7b"Content-Type": "application/json"\x7d\x7d)`
— no body field at all. -/
def dataForwardedRequest (b : ClientBody) : ForwardedRequest :=
  { url := b.apiUrl
    method := "POST"
    headers := [("Content-Type", "application/json")]
    body := none }

/-- The Data Relay `POST` handler (part_000). Returns the HTTP response and
the outbound request it issued (`none` when the body never parsed). -/
def dataPOST {J : Type} (parse : String → Option J) (reqBody : Option ClientBody)
    (upstream : String → FetchOutcome) : RelayResponse J × Option ForwardedRequest :=
  match reqBody with
  | none => (⟨500, .errObj "Failed to fetch data API"⟩, none)
  | some b =>
    let fwd := dataForwardedRequest b
    match upstream b.apiUrl with
    | .threw _ => (⟨500, .errObj "Failed to fetch data API"⟩, some fwd)
    | .responded status text =>
      if statusOk status then
        match parse text with
        | some d => (⟨200, .json d⟩, some fwd)
        | none => (⟨500, .errObj "Failed to fetch data API"⟩, some fwd)
      else (⟨500, .errObj "Failed to fetch data API"⟩, some fwd)

/-- The Prompt Relay `POST` handler (part_001). `reqBody` is the parsed client
body (`none` when `request.json()` threw); `upstream` is the outcome of the
fetch to the fixed upstream endpoint; `parse` is `JSON.parse` on the response
text. -/
def promptPOST {J : Type} (parse : String → Option J) (reqBody : Option J)
    (upstream : FetchOutcome) : RelayResponse J :=
  match reqBody with
  | none => ⟨500, .errObj "Failed to fetch prompt API"⟩
  | some _ =>
    match upstream with
    | .threw _ => ⟨500, .errObj "Failed to fetch prompt API"⟩
    | .responded status text =>
      if statusOk status then
        match parse text with
        | some d => ⟨200, .json d⟩
        | none => ⟨500, .errObj ("API returned non-JSON response: " ++ text)⟩
      else ⟨500, .errObj "Failed to fetch prompt API"⟩

/-! ## Chat orchestrator state (page.tsx lines 98-102) -/

/-- The `useState` variables of `GreensboroAIChat`. -/
structure ChatState where
  showWelcome : Bool
  selectedItem : Option EventData
  messages : List ChatMessage
  input : String
  isLoading : Bool
deriving DecidableEq

/-- The initial state: welcome screen shown, transcript empty. -/
def initState : ChatState :=
  { showWelcome := true
    selectedItem := none
    messages := []
    input := ""
    isLoading := false }

/-- Outbound calls the orchestrator can issue. -/
inductive OutCall where
  | promptAPI (question : String)
  | dataAPI (apiUrl : String)
deriving DecidableEq, Repr

/-- Content of the generic assistant error message (page.tsx lines 224-225). -/
def genericErrorContent : String :=
  "I encountered an error while searching. Please try again or check your connection."

/-- The user message built at the top of `handleSubmit` (page.tsx lines 184-189). -/
def mkUserMessage (content : String) (now : Nat) : ChatMessage :=
  { id := toString now, type := .user, content := content, timestamp := now }

/-- The assistant summary message (page.tsx lines 200-207). -/
def mkAssistantMessage (currentInput : String) (d : DataResponse) (now : Nat) : ChatMessage :=
  { id := toString (now + 1)
    type := .assistant
    content := "I found " ++ toString (d.data.getD []).length ++ " great results for \""
      ++ currentInput ++ "\". Here\x27s what I discovered:"
    timestamp := now }

/-- The results message (page.tsx lines 209-215): `data: dataResponse.data || []`. -/
def mkResultsMessage (d : DataResponse) (now : Nat) : ChatMessage :=
  { id := toString (now + 2)
    type := .results
    content := ""
    timestamp := now
    data := some (d.data.getD []) }

/-- The generic error message appended in the catch block (page.tsx lines 221-227). -/
def mkErrorMessage (now : Nat) : ChatMessage :=
  { id := toString (now + 1), type := .assistant, content := genericErrorContent, timestamp := now }

/-- The welcome greeting seeded by `handleGetStarted` (page.tsx lines 134-140). -/
def mkWelcomeMessage (now : Nat) : ChatMessage :=
  { id := "1"
    type := .assistant
    content := "Welcome to your intelligent guide to Greensboro! I\x27m here to help you discover amazing events, attractions, dining, and experiences throughout the Gate City. What would you like to explore today?"
    timestamp := now }

/-- State after the synchronous prefix of `handleSubmit` (lines 191-194), once
the guard has passed: user message appended, input cleared, loading set. -/
def submitPendingState (st : ChatState) (now : Nat) : ChatState :=
  { st with
    messages := st.messages ++ [mkUserMessage st.input now]
    input := ""
    isLoading := true }

/-- `handleSubmit` (page.tsx lines 180-232) as one transition: guard
(line 182), synchronous prefix, then `callPromptAPI` followed by
`callDataAPI` (both relayed), with the catch block on any failure and
`setIsLoading(false)` in `finally`. `pr` is the outcome of the prompt call,
`dr url` the outcome of the data call at `url`; an `Except.error` covers both
a non-ok HTTP status (the `throw` in `callPromptAPI`/`callDataAPI`) and a
network failure. Returns the new state and the outbound calls issued. -/
def handleSubmit (st : ChatState) (now : Nat) (pr : Except String ApiResponse)
    (dr : String → Except String DataResponse) : ChatState × List OutCall :=
  if jsTrim st.input = "" ∨ st.isLoading = true then (st, [])
  else
    let currentInput := st.input
    let st1 := submitPendingState st now
    match pr with
    | .error _ =>
      ({ st1 with messages := st1.messages ++ [mkErrorMessage now], isLoading := false },
        [OutCall.promptAPI currentInput])
    | .ok apiResponse =>
      match dr apiResponse.api_url with
      | .error _ =>
        ({ st1 with messages := st1.messages ++ [mkErrorMessage now], isLoading := false },
          [OutCall.promptAPI currentInput, OutCall.dataAPI apiResponse.api_url])
      | .ok dataResponse =>
        ({ st1 with
            messages := st1.messages ++
              [mkAssistantMessage currentInput dataResponse now, mkResultsMessage dataResponse now]
            isLoading := false },
          [OutCall.promptAPI currentInput, OutCall.dataAPI apiResponse.api_url])

/-- UI events the rendered page can deliver. A submit event carries the
outcomes of the two relay calls it would trigger. -/
inductive UIEvent where
  | getStarted (now : Nat)
  | submit (now : Nat) (pr : Except String ApiResponse) (dr : String → Except String DataResponse)
  | select (item : EventData)
  | dismissDialog
  | setInputField (s : String)

/-- One step of the orchestrator. Guards reflect what the page renders:
the Get Started button exists only on the welcome screen (page.tsx line 265
vs 363), the chat form only after it (line 611), and the input field and
quick actions are disabled while loading (lines 598, 621). -/
def step (st : ChatState) (e : UIEvent) : ChatState × List OutCall :=
  match e with
  | .getStarted now =>
    if st.showWelcome = true then
      ({ st with showWelcome := false, messages := [mkWelcomeMessage now] }, [])
    else (st, [])
  | .submit now pr dr =>
    if st.showWelcome = true then (st, []) else handleSubmit st now pr dr
  | .select item => ({ st with selectedItem := some item }, [])
  | .dismissDialog => ({ st with selectedItem := none }, [])
  | .setInputField s =>
    if st.isLoading = true then (st, []) else ({ st with input := s }, [])

/-- States reachable from the initial state by UI events. -/
inductive Reachable : ChatState → Prop where
  | init : Reachable initState
  | next : ∀ st e, Reachable st → Reachable (step st e).1

/-! ## Concrete data used by witnesses -/

/-- A concrete record whose stored price is the literal string "free". -/
def exFreeItem : EventData :=
  { id := "e1"
    title := "Park Concert"
    listing_image := "/img1.jpg"
    location := "Downtown"
    address := "100 Main St"
    city := "Greensboro"
    price := "free"
    is_favourite := false
    categories := "Music" }

/-- A concrete record with an ordinary paid price. -/
def exPaidItem : EventData :=
  { id := "e2"
    title := "Museum Tour"
    listing_image := "/img2.jpg"
    location := "Downtown"
    address := "200 Elm St"
    city := "Greensboro"
    price := "$10"
    is_favourite := true
    categories := "History" }

/-- A concrete chat state on the chat screen with a pending input. -/
def exState : ChatState :=
  { showWelcome := false
    selectedItem := none
    messages := []
    input := "free events"
    isLoading := false }

/-! ## Claims -/

/-- Claim C1: the spec says a stored price of "0" or "free" renders as "Free"
in every place the price is displayed. The result card (line 508) does so, but
the detail view (line 727) tests `item.price` — a variable from the
card-rendering scope, not the selected item — so a selected item whose price
is "free" is rendered as the raw string "free" whenever that outer variable
has any other price. -/
theorem c1_detail_view_price_bug :
    exFreeItem.price = "free" ∧
    renderCardPrice exFreeItem = "Free" ∧
    renderDetailPrice exFreeItem exPaidItem = "free" ∧
    ¬ renderDetailPrice exFreeItem exPaidItem = "Free" := by
  refine ⟨rfl, ?_, ?_, ?_⟩ <;> decide

/-- Claim C3: submitting while loading, or with an empty or whitespace-only
input, leaves the whole state unchanged and issues no outbound call. -/
theorem c3_submit_guard_noop (st : ChatState) (now : Nat) (pr : Except String ApiResponse)
    (dr : String → Except String DataResponse)
    (h : jsTrim st.input = "" ∨ st.isLoading = true) :
    handleSubmit st now pr dr = (st, []) := by
  unfold handleSubmit
  rw [if_pos h]

/-- Witness for C3, at a whitespace-only input. -/
theorem c3_submit_guard_noop_witness :
    (jsTrim "   " = "" ∨ false = true) ∧
    handleSubmit { exState with input := "   " } 0 (.error "x") (fun _ => .error "x")
      = ({ exState with input := "   " }, []) :=
  ⟨Or.inl (by decide),
    c3_submit_guard_noop { exState with input := "   " } 0 (.error "x") (fun _ => .error "x")
      (Or.inl (by decide))⟩

/-- Claim C5: the request the Data Relay forwards to the upstream URL carries
no body and no headers beyond Content-Type, and depends only on `apiUrl`: two
client bodies with the same `apiUrl` produce identical forwarded requests. -/
theorem c5_data_forward_independent (b b2 : ClientBody) (h : b.apiUrl = b2.apiUrl) :
    dataForwardedRequest b = dataForwardedRequest b2 ∧
    (dataForwardedRequest b).body = none ∧
    (dataForwardedRequest b).headers = [("Content-Type", "application/json")] ∧
    (dataForwardedRequest b).method = "POST" := by
  refine ⟨?_, rfl, rfl, rfl⟩
  simp [dataForwardedRequest, h]

/-- Witness for C5: same `apiUrl`, different extra client fields. -/
theorem c5_data_forward_independent_witness :
    (ClientBody.mk "http://x/api" [("k", "v")]).apiUrl = (ClientBody.mk "http://x/api" []).apiUrl ∧
    dataForwardedRequest (ClientBody.mk "http://x/api" [("k", "v")])
      = dataForwardedRequest (ClientBody.mk "http://x/api" []) ∧
    (dataForwardedRequest (ClientBody.mk "http://x/api" [("k", "v")])).body = none ∧
    (dataForwardedRequest (ClientBody.mk "http://x/api" [("k", "v")])).headers
      = [("Content-Type", "application/json")] ∧
    (dataForwardedRequest (ClientBody.mk "http://x/api" [("k", "v")])).method = "POST" :=
  ⟨rfl, c5_data_forward_independent (ClientBody.mk "http://x/api" [("k", "v")])
    (ClientBody.mk "http://x/api" []) rfl⟩

/-- Claim C6: when the Prompt Relay's upstream returns a success status but a
body that does not parse as JSON, the relay answers 500 with an error field
carrying the raw upstream text; a non-success status instead yields the fixed
message that does not carry the body text. -/
theorem c6_prompt_malformed_json {J : Type} (parse : String → Option J) (j : J)
    (status : Nat) (text : String) (hok : statusOk status) (hparse : parse text = none) :
    promptPOST parse (some j) (.responded status text)
      = ⟨500, .errObj ("API returned non-JSON response: " ++ text)⟩ ∧
    ∀ status2, ¬ statusOk status2 →
      promptPOST parse (some j) (.responded status2 text)
        = ⟨500, .errObj "Failed to fetch prompt API"⟩ := by
  constructor
  · simp [promptPOST, if_pos hok, hparse]
  · intro s2 h2
    simp [promptPOST, if_neg h2]

/-- Witness for C6: status 200, body "not json", a parse that fails. -/
theorem c6_prompt_malformed_json_witness :
    statusOk 200 ∧ ((fun _ => (none : Option Nat)) "not json" = none) ∧
    (promptPOST (fun _ => (none : Option Nat)) (some 0) (.responded 200 "not json")
        = ⟨500, .errObj ("API returned non-JSON response: " ++ "not json")⟩ ∧
      ∀ status2, ¬ statusOk status2 →
        promptPOST (fun _ => (none : Option Nat)) (some 0) (.responded status2 "not json")
          = ⟨500, .errObj "Failed to fetch prompt API"⟩) :=
  ⟨by constructor <;> decide, rfl,
    c6_prompt_malformed_json (fun _ => none) 0 200 "not json" (by constructor <;> decide) rfl⟩

/-- Claim C10: both relay handlers are total at the HTTP boundary: whatever
the request body, the fetch outcome and the parse results, each returns a
JSON response that is either 200 with a passed-through value or 500 with an
error-field object. -/
theorem c10_relays_total {J : Type} (parseP parseD : String → Option J)
    (pb : Option J) (db : Option ClientBody) (upP : FetchOutcome)
    (upD : String → FetchOutcome) :
    (((promptPOST parseP pb upP).status = 200 ∧ ∃ j, (promptPOST parseP pb upP).body = .json j) ∨
      ((promptPOST parseP pb upP).status = 500 ∧
        ∃ m, (promptPOST parseP pb upP).body = .errObj m)) ∧
    (((dataPOST parseD db upD).1.status = 200 ∧ ∃ j, (dataPOST parseD db upD).1.body = .json j) ∨
      ((dataPOST parseD db upD).1.status = 500 ∧
        ∃ m, (dataPOST parseD db upD).1.body = .errObj m)) := by
  constructor
  · rcases pb with _ | j
    · exact Or.inr ⟨rfl, _, rfl⟩
    · rcases upP with e | ⟨s, t⟩
      · exact Or.inr ⟨rfl, _, rfl⟩
      · by_cases h : statusOk s
        · rcases hp : parseP t with _ | d
          · refine Or.inr ?_
            simp [promptPOST, if_pos h, hp]
          · refine Or.inl ?_
            simp [promptPOST, if_pos h, hp]
        · refine Or.inr ?_
          simp [promptPOST, if_neg h]
  · rcases db with _ | b
    · exact Or.inr ⟨rfl, _, rfl⟩
    · rcases hu : upD b.apiUrl with e | ⟨s, t⟩
      · refine Or.inr ?_
        simp [dataPOST, hu]
      · by_cases h : statusOk s
        · rcases hp : parseD t with _ | d
          · refine Or.inr ?_
            simp [dataPOST, hu, if_pos h, hp]
          · refine Or.inl ?_
            simp [dataPOST, hu, if_pos h, hp]
        · refine Or.inr ?_
          simp [dataPOST, hu, if_neg h]

/-! ## Helper lemmas for the submit transition -/

/-- `handleSubmit` never touches `showWelcome`. -/
theorem handleSubmit_showWelcome (st : ChatState) (now : Nat) (pr : Except String ApiResponse)
    (dr : String → Except String DataResponse) :
    (handleSubmit st now pr dr).1.showWelcome = st.showWelcome := by
  by_cases hguard : jsTrim st.input = "" ∨ st.isLoading = true
  · simp [handleSubmit, if_pos hguard]
  · cases pr with
    | error e => simp [handleSubmit, if_neg hguard, submitPendingState]
    | ok ar =>
      cases hdr : dr ar.api_url with
      | error e => simp [handleSubmit, if_neg hguard, hdr, submitPendingState]
      | ok d => simp [handleSubmit, if_neg hguard, hdr, submitPendingState]

/-- `handleSubmit` only ever appends to the transcript. -/
theorem handleSubmit_messages_extend (st : ChatState) (now : Nat)
    (pr : Except String ApiResponse) (dr : String → Except String DataResponse) :
    ∃ t, (handleSubmit st now pr dr).1.messages = st.messages ++ t := by
  by_cases hguard : jsTrim st.input = "" ∨ st.isLoading = true
  · exact ⟨[], by simp [handleSubmit, if_pos hguard]⟩
  · cases pr with
    | error e =>
      exact ⟨[mkUserMessage st.input now, mkErrorMessage now],
        by simp [handleSubmit, if_neg hguard, submitPendingState]⟩
    | ok ar =>
      cases hdr : dr ar.api_url with
      | error e =>
        exact ⟨[mkUserMessage st.input now, mkErrorMessage now],
          by simp [handleSubmit, if_neg hguard, hdr, submitPendingState]⟩
      | ok d =>
        exact ⟨[mkUserMessage st.input now, mkAssistantMessage st.input d now,
          mkResultsMessage d now],
          by simp [handleSubmit, if_neg hguard, hdr, submitPendingState]⟩

/-- On the welcome screen the transcript is still empty: `showWelcome` starts
true, is only ever set to false, and every transcript write happens on the
chat screen. -/
theorem reachable_welcome_empty (st : ChatState) (h : Reachable st) :
    st.showWelcome = true → st.messages = [] := by
  induction h with
  | init => intro; rfl
  | next st e hst ih =>
    cases e with
    | getStarted now =>
      simp only [step]
      by_cases hw : st.showWelcome = true
      · rw [if_pos hw]
        intro hco
        exact absurd hco (by simp)
      · rw [if_neg hw]
        exact ih
    | submit now pr dr =>
      simp only [step]
      by_cases hw : st.showWelcome = true
      · rw [if_pos hw]
        exact ih
      · rw [if_neg hw]
        intro hco
        rw [handleSubmit_showWelcome] at hco
        exact absurd hco hw
    | select item => exact ih
    | dismissDialog => exact ih
    | setInputField s =>
      simp only [step]
      by_cases hl : st.isLoading = true
      · rw [if_pos hl]
        exact ih
      · rw [if_neg hl]
        exact ih

/-! ## Remaining claims -/

/-- Claim C2: a submit with non-empty, non-whitespace input while not loading
appends exactly one user message immediately (the synchronous prefix), and the
completed transition appends exactly one assistant summary and one results
message when both relay calls succeed, or exactly one generic assistant error
message when either fails — never zero, never more than one of each. -/
theorem c2_submit_appends (st : ChatState) (now : Nat) (pr : Except String ApiResponse)
    (dr : String → Except String DataResponse)
    (h1 : ¬ jsTrim st.input = "") (h2 : st.isLoading = false) :
    (submitPendingState st now).messages = st.messages ++ [mkUserMessage st.input now] ∧
    (mkUserMessage st.input now).type = .user ∧
    (mkUserMessage st.input now).content = st.input ∧
    (match pr with
      | .error _ =>
        (handleSubmit st now pr dr).1.messages
          = st.messages ++ [mkUserMessage st.input now, mkErrorMessage now] ∧
        (mkErrorMessage now).type = .assistant
      | .ok ar =>
        match dr ar.api_url with
        | .error _ =>
          (handleSubmit st now pr dr).1.messages
            = st.messages ++ [mkUserMessage st.input now, mkErrorMessage now] ∧
          (mkErrorMessage now).type = .assistant
        | .ok d =>
          (handleSubmit st now pr dr).1.messages
            = st.messages ++ [mkUserMessage st.input now,
                mkAssistantMessage st.input d now, mkResultsMessage d now] ∧
          (mkAssistantMessage st.input d now).type = .assistant ∧
          (mkResultsMessage d now).type = .results) := by
  have hguard : ¬ (jsTrim st.input = "" ∨ st.isLoading = true) := by
    rintro (h | h)
    · exact h1 h
    · rw [h2] at h
      exact absurd h (by simp)
  refine ⟨rfl, rfl, rfl, ?_⟩
  cases pr with
  | error e =>
    simp [handleSubmit, if_neg hguard, submitPendingState, mkErrorMessage]
  | ok ar =>
    cases hdr : dr ar.api_url with
    | error e =>
      simp [handleSubmit, if_neg hguard, hdr, submitPendingState, mkErrorMessage]
    | ok d =>
      simp [handleSubmit, if_neg hguard, hdr, submitPendingState,
        mkAssistantMessage, mkResultsMessage]

/-- Witness for C2, on a successful round trip with one result record. -/
theorem c2_submit_appends_witness :
    ¬ jsTrim exState.input = "" ∧ exState.isLoading = false ∧
    (handleSubmit exState 0 (.ok ⟨"http://x/api", "events"⟩)
        (fun _ => .ok ⟨some [exFreeItem]⟩)).1.messages
      = exState.messages ++ [mkUserMessage exState.input 0,
          mkAssistantMessage exState.input ⟨some [exFreeItem]⟩ 0,
          mkResultsMessage ⟨some [exFreeItem]⟩ 0] := by
  have h := c2_submit_appends exState 0 (.ok ⟨"http://x/api", "events"⟩)
    (fun _ => .ok ⟨some [exFreeItem]⟩) (by decide) rfl
  exact ⟨by decide, rfl, h.2.2.2.1⟩

/-- Claim C4: when the Prompt Relay call fails, the Data Relay call is never
issued and the transcript gains exactly one generic assistant error message;
in general a Data Relay call is only ever issued after the Prompt Relay call
resolved successfully. -/
theorem c4_prompt_failure_no_data_call (st : ChatState) (now : Nat)
    (pr : Except String ApiResponse) (dr : String → Except String DataResponse)
    (h1 : ¬ jsTrim st.input = "") (h2 : st.isLoading = false) :
    (∀ msg, pr = .error msg →
      (handleSubmit st now pr dr).2 = [OutCall.promptAPI st.input] ∧
      (handleSubmit st now pr dr).1.messages
        = st.messages ++ [mkUserMessage st.input now, mkErrorMessage now] ∧
      (mkErrorMessage now).type = .assistant ∧
      (mkErrorMessage now).content = genericErrorContent) ∧
    (∀ url, OutCall.dataAPI url ∈ (handleSubmit st now pr dr).2 →
      ∃ ar, pr = .ok ar ∧ url = ar.api_url) := by
  have hguard : ¬ (jsTrim st.input = "" ∨ st.isLoading = true) := by
    rintro (h | h)
    · exact h1 h
    · rw [h2] at h
      exact absurd h (by simp)
  constructor
  · rintro msg rfl
    refine ⟨?_, ?_, rfl, rfl⟩
    · simp [handleSubmit, if_neg hguard]
    · simp [handleSubmit, if_neg hguard, submitPendingState]
  · intro url hmem
    cases pr with
    | error e =>
      simp [handleSubmit, if_neg hguard] at hmem
    | ok ar =>
      refine ⟨ar, rfl, ?_⟩
      cases hdr : dr ar.api_url with
      | error e =>
        simp [handleSubmit, if_neg hguard, hdr] at hmem
        exact hmem
      | ok d =>
        simp [handleSubmit, if_neg hguard, hdr] at hmem
        exact hmem

/-- Witness for C4, with a prompt call failing as on HTTP 503. -/
theorem c4_prompt_failure_no_data_call_witness :
    ¬ jsTrim exState.input = "" ∧ exState.isLoading = false ∧
    (handleSubmit exState 0 (.error "Prompt API failed: 503")
        (fun _ => .ok ⟨some []⟩)).2 = [OutCall.promptAPI exState.input] ∧
    (handleSubmit exState 0 (.error "Prompt API failed: 503")
        (fun _ => .ok ⟨some []⟩)).1.messages
      = exState.messages ++ [mkUserMessage exState.input 0, mkErrorMessage 0] := by
  have h := c4_prompt_failure_no_data_call exState 0 (.error "Prompt API failed: 503")
    (fun _ => .ok ⟨some []⟩) (by decide) rfl
  have h2 := h.1 "Prompt API failed: 503" rfl
  exact ⟨by decide, rfl, h2.1, h2.2.1⟩

/-- Claim C7: on a successful submit whose Data Relay response has a `data`
field with the records `l`, the appended results message carries exactly `l`,
order preserved. -/
theorem c7_results_payload_preserved (st : ChatState) (now : Nat) (ar : ApiResponse)
    (d : DataResponse) (dr : String → Except String DataResponse) (l : List EventData)
    (h1 : ¬ jsTrim st.input = "") (h2 : st.isLoading = false)
    (hdr : dr ar.api_url = .ok d) (hd : d.data = some l) :
    (handleSubmit st now (.ok ar) dr).1.messages
      = st.messages ++ [mkUserMessage st.input now,
          mkAssistantMessage st.input d now, mkResultsMessage d now] ∧
    (mkResultsMessage d now).data = some l ∧
    (mkResultsMessage d now).type = .results := by
  have hguard : ¬ (jsTrim st.input = "" ∨ st.isLoading = true) := by
    rintro (h | h)
    · exact h1 h
    · rw [h2] at h
      exact absurd h (by simp)
  refine ⟨?_, ?_, rfl⟩
  · simp [handleSubmit, if_neg hguard, hdr, submitPendingState]
  · simp [mkResultsMessage, hd]

/-- Witness for C7, with a two-record payload. -/
theorem c7_results_payload_preserved_witness :
    ¬ jsTrim exState.input = "" ∧ exState.isLoading = false ∧
    (fun _ => (Except.ok ⟨some [exFreeItem, exPaidItem]⟩ : Except String DataResponse))
        "http://x/api" = .ok ⟨some [exFreeItem, exPaidItem]⟩ ∧
    (⟨some [exFreeItem, exPaidItem]⟩ : DataResponse).data = some [exFreeItem, exPaidItem] ∧
    (mkResultsMessage ⟨some [exFreeItem, exPaidItem]⟩ 0).data
      = some [exFreeItem, exPaidItem] := by
  have h := c7_results_payload_preserved exState 0 ⟨"http://x/api", "events"⟩
    ⟨some [exFreeItem, exPaidItem]⟩
    (fun _ => (Except.ok ⟨some [exFreeItem, exPaidItem]⟩ : Except String DataResponse))
    [exFreeItem, exPaidItem] (by decide) rfl rfl rfl
  exact ⟨by decide, rfl, rfl, rfl, h.2.1⟩

/-- Claim C8: the selection always holds at most one item: selecting X sets it
to exactly X (replacing any previous selection), dismissing the dialog clears
it, and a selection state never holds two distinct items at once. -/
theorem c8_selection_at_most_one :
    (∀ (st : ChatState) (x : EventData), (step st (.select x)).1.selectedItem = some x) ∧
    (∀ st : ChatState, (step st .dismissDialog).1.selectedItem = none) ∧
    (∀ (st : ChatState) (x y : EventData),
      st.selectedItem = some x → st.selectedItem = some y → x = y) := by
  refine ⟨fun st x => rfl, fun st => rfl, fun st x y hx hy => ?_⟩
  rw [hx] at hy
  exact Option.some.inj hy

/-- Witness for C8: select one item, replace it with another, then dismiss. -/
theorem c8_selection_at_most_one_witness :
    (step exState (.select exFreeItem)).1.selectedItem = some exFreeItem ∧
    (step (step exState (.select exFreeItem)).1 (.select exPaidItem)).1.selectedItem
      = some exPaidItem ∧
    (step (step exState (.select exFreeItem)).1 .dismissDialog).1.selectedItem = none ∧
    exFreeItem = exFreeItem :=
  ⟨c8_selection_at_most_one.1 exState exFreeItem,
    c8_selection_at_most_one.1 (step exState (.select exFreeItem)).1 exPaidItem,
    c8_selection_at_most_one.2.1 (step exState (.select exFreeItem)).1,
    c8_selection_at_most_one.2.2 { exState with selectedItem := some exFreeItem }
      exFreeItem exFreeItem rfl rfl⟩

/-- Claim C9: from any reachable state, every UI event leaves the previous
transcript a prefix of the new one — messages are only ever appended, never
removed, reordered or mutated. -/
theorem c9_transcript_append_only (st : ChatState) (hr : Reachable st) (e : UIEvent) :
    st.messages <+: (step st e).1.messages := by
  cases e with
  | getStarted now =>
    simp only [step]
    by_cases hw : st.showWelcome = true
    · rw [if_pos hw, reachable_welcome_empty st hr hw]
      exact ⟨[mkWelcomeMessage now], rfl⟩
    · rw [if_neg hw]
  | submit now pr dr =>
    simp only [step]
    by_cases hw : st.showWelcome = true
    · rw [if_pos hw]
    · rw [if_neg hw]
      obtain ⟨t, ht⟩ := handleSubmit_messages_extend st now pr dr
      exact ⟨t, ht.symm⟩
  | select item => exact ⟨[], by simp [step]⟩
  | dismissDialog => exact ⟨[], by simp [step]⟩
  | setInputField s =>
    simp only [step]
    by_cases hl : st.isLoading = true
    · rw [if_pos hl]
    · rw [if_neg hl]

/-- Witness for C9, at the initial state taking the start transition. -/
theorem c9_transcript_append_only_witness :
    initState.messages <+: (step initState (UIEvent.getStarted 0)).1.messages :=
  c9_transcript_append_only initState Reachable.init (UIEvent.getStarted 0)
